import Mathlib

/-!
# Smart-home anomaly detection: a shallow embedding

A Lean 4 embedding of the windowed anomaly-evaluation engine of the
`Cyber-Attack-Detection-in-a-Smart-Home-System` repository
(`python-implementation/smart_home_anomaly_detection.py` and the standalone
detector modules), together with theorems settling the specification's claims.

Timestamps and power values are modelled as rationals (Python `datetime`
arithmetic is exact at this granularity).  Python dictionaries are modelled as
insertion-ordered association lists; `dict.setdefault` inserts at the end, and
updates replace in place, exactly as in CPython.  Access to a possibly missing
event field (`event["success"]`) is modelled in the `Except` monad: a missing
key is a raised `KeyError`, which the engine (having no `try`/`except`)
propagates.
-/

set_option autoImplicit false

namespace SmartHome

/-- A Python `datetime`: the absolute time `t` in seconds used for window
arithmetic, and the `hour` component consulted by `is_business_hours`. -/
structure DateTime where
  t : ℚ
  hour : ℕ
deriving DecidableEq, Repr, Inhabited

/-- Insertion-ordered association list: the model of a Python `dict`. -/
abbrev PyDict (α β : Type) := List (α × β)

/-- `d[k]` lookup returning `none` when the key is absent. -/
def dictGet {α β : Type} [DecidableEq α] (m : PyDict α β) (k : α) : Option β :=
  match m with
  | [] => none
  | (k', v) :: rest => if k' = k then some v else dictGet rest k

/-- `d[k] = v`: replace in place if the key is present, else append at the
end — CPython's insertion-order semantics, shared by `setdefault`. -/
def dictSet {α β : Type} [DecidableEq α] (m : PyDict α β) (k : α) (v : β) : PyDict α β :=
  match m with
  | [] => [(k, v)]
  | (k', v') :: rest => if k' = k then (k, v) :: rest else (k', v') :: dictSet rest k v

/-- A smart-home event.  `timestamp` is always present; the remaining fields
mirror the optional keys of the Python event dict (a missing key raises
`KeyError` when accessed directly). -/
structure Event where
  type : String
  timestamp : DateTime
  user_id : Option String := none
  role : Option String := none
  device_id : Option String := none
  command : Option String := none
  reading_type : Option String := none
  value : Option ℚ := none
  success : Option Bool := none
deriving Repr

/-- `event["field"]`: direct subscript access; raises `KeyError` when the
field is absent. -/
def getField {α : Type} : Option α → Except Unit α
  | none => .error ()
  | some a => .ok a

/-- The anomaly records the detectors can produce. -/
inductive Anomaly where
  | failed_login_rate (user_id : String) (count : ℕ)
  | control_command_rate (user_id device_id : String) (count : ℕ)
  | invalid_power_reading (device_id : String) (value : ℚ)
  | high_power_reading (device_id : String) (value average : ℚ)
  | unusual_device_access (user_id device_id : String)
  | suspicious_sequence (user_id : String) (sequence : List String)
deriving DecidableEq, Repr

/-- The module-level `state` dictionary. -/
structure EngineState where
  failed_logins : PyDict String (List DateTime) := []
  control_commands : PyDict (String × String) (List DateTime) := []
  power_readings : PyDict String (List ℚ) := []
  user_profiles : PyDict String (List String) := []
  user_commands : PyDict String (List (String × DateTime)) := []
deriving Repr

/-- The result of one detector: either a raised exception, or the
`(is_anomaly, anomaly_info)` pair together with the (possibly mutated)
shared state. -/
abbrev DetResult := Except Unit (Option Anomaly × EngineState)

-- Constants of smart_home_anomaly_detection.py.
def BUSINESS_HOURS_START : ℕ := 9
def BUSINESS_HOURS_END : ℕ := 17
def FAILED_LOGIN_WINDOW : ℚ := 60
def FAILED_LOGIN_THRESHOLD : ℕ := 5
def CONTROL_COMMAND_WINDOW : ℚ := 30
def CONTROL_COMMAND_THRESHOLD : ℕ := 10
def CONTROL_COMMAND_THRESHOLD_ADMIN : ℕ := 20
def POWER_READING_HISTORY : ℕ := 100
def SUSPICIOUS_SEQUENCES : List (List String × ℚ) :=
  [(["disable_alarm", "unlock_door"], 10)]

/-- `is_business_hours`: hour component only, inclusive start, exclusive end. -/
def is_business_hours (timestamp : DateTime) : Bool :=
  BUSINESS_HOURS_START ≤ timestamp.hour ∧ timestamp.hour < BUSINESS_HOURS_END

/-- The `while deque and now - deque[0] > window: deque.popleft()` idiom:
evict from the front every entry strictly older than the window, stopping at
the first retained entry. -/
def evictOld (window : ℚ) (now : DateTime) : List DateTime → List DateTime
  | [] => []
  | x :: rest => if now.t - x.t > window then evictOld window now rest else x :: rest

/-- `check_failed_login_rate` of smart_home_anomaly_detection.py. -/
def check_failed_login_rate (e : Event) (s : EngineState) : DetResult :=
  if e.type = "login_attempt" then
    match getField e.success with
    | .error _ => .error ()
    | .ok true => .ok (none, s)
    | .ok false =>
      match getField e.user_id with
      | .error _ => .error ()
      | .ok user_id =>
        let now := e.timestamp
        let failed_logins := (dictGet s.failed_logins user_id).getD []
        let failed_logins := evictOld FAILED_LOGIN_WINDOW now failed_logins
        let failed_logins := failed_logins ++ [now]
        let s := { s with failed_logins := dictSet s.failed_logins user_id failed_logins }
        if failed_logins.length > FAILED_LOGIN_THRESHOLD then
          .ok (some (.failed_login_rate user_id failed_logins.length), s)
        else
          .ok (none, s)
  else .ok (none, s)

/-- `check_control_command_rate` of smart_home_anomaly_detection.py. -/
def check_control_command_rate (e : Event) (s : EngineState) : DetResult :=
  if e.type = "control_command" then
    match getField e.user_id, getField e.role, getField e.device_id with
    | .ok user_id, .ok role, .ok device_id =>
      let timestamp := e.timestamp
      let key := (user_id, device_id)
      let commands := (dictGet s.control_commands key).getD []
      let commands := evictOld CONTROL_COMMAND_WINDOW timestamp commands
      let commands := commands ++ [timestamp]
      let s := { s with control_commands := dictSet s.control_commands key commands }
      let count := commands.length
      let threshold :=
        if (role = "ADMIN" ∨ role = "MANAGER") ∧ is_business_hours timestamp then
          CONTROL_COMMAND_THRESHOLD_ADMIN
        else CONTROL_COMMAND_THRESHOLD
      if count > threshold then
        .ok (some (.control_command_rate user_id device_id count), s)
      else
        .ok (none, s)
    | _, _, _ => .error ()

  else .ok (none, s)

/-- `check_power_consumption` of smart_home_anomaly_detection.py.  Note that
when the high-reading branch fires, the function returns *before* the
`historical_values.append(value)` line, so a firing value is not recorded. -/
def check_power_consumption (e : Event) (s : EngineState) : DetResult :=
  if e.type = "sensor_reading" then
    match getField e.reading_type with
    | .error _ => .error ()
    | .ok reading_type =>
      if reading_type = "power" then
        match getField e.device_id, getField e.value with
        | .ok device_id, .ok value =>
          if value ≤ 0 then
            .ok (some (.invalid_power_reading device_id value), s)
          else
            let historical_values := (dictGet s.power_readings device_id).getD []
            let avg := historical_values.sum / historical_values.length
            if historical_values.length ≠ 0 ∧ value > 3/2 * avg then
              .ok (some (.high_power_reading device_id value avg), s)
            else
              let historical_values := historical_values ++ [value]
              let historical_values :=
                if historical_values.length > POWER_READING_HISTORY then
                  historical_values.drop 1
                else historical_values
              .ok (none,
                { s with power_readings := dictSet s.power_readings device_id historical_values })
        | _, _ => .error ()
      else .ok (none, s)
  else .ok (none, s)

/-- `check_unusual_device_access` of smart_home_anomaly_detection.py.  The
`setdefault(user_id, set())` call writes the (possibly empty) profile entry
back into the map, which inserts a fresh empty profile for an unseen user. -/
def check_unusual_device_access (e : Event) (s : EngineState) : DetResult :=
  if e.type = "control_command" then
    match getField e.user_id, getField e.device_id with
    | .ok user_id, .ok device_id =>
      let common_devices := (dictGet s.user_profiles user_id).getD []
      let s := { s with user_profiles := dictSet s.user_profiles user_id common_devices }
      if device_id ∈ common_devices then
        .ok (none, s)
      else
        .ok (some (.unusual_device_access user_id device_id), s)
    | _, _ => .error ()
  else .ok (none, s)

/-- Does `(sequence, time_window)` match against the pruned history?  True
when the last `sequence.length` commands equal `sequence` in order and the
span from the first command of that slice to the event is within the
window (inclusive). -/
def seqMatches (timestamp : DateTime) (recent : List (String × DateTime))
    (sequence : List String) (time_window : ℚ) : Bool :=
  recent.length ≥ sequence.length ∧
    (recent.drop (recent.length - sequence.length)).map Prod.fst = sequence ∧
    timestamp.t -
        ((recent.drop (recent.length - sequence.length)).headD ("", default)).2.t
      ≤ time_window

/-- The `for sequence, time_window in SUSPICIOUS_SEQUENCES` loop: the Python
`return` inside the loop stops at the *first* matching configured pair. -/
def checkSequences (user_id : String) (timestamp : DateTime)
    (recent : List (String × DateTime)) :
    List (List String × ℚ) → Option Anomaly
  | [] => none
  | (sequence, time_window) :: rest =>
    if seqMatches timestamp recent sequence time_window then
      some (.suspicious_sequence user_id sequence)
    else checkSequences user_id timestamp recent rest

/-- `check_command_sequence` with the suspicious-sequence catalog as a
parameter (the source reads the module constant `SUSPICIOUS_SEQUENCES`). -/
def check_command_sequence_with (catalog : List (List String × ℚ))
    (e : Event) (s : EngineState) : DetResult :=
  if e.type = "control_command" then
    match getField e.user_id, getField e.command with
    | .ok user_id, .ok command =>
      let timestamp := e.timestamp
      let recent_commands := (dictGet s.user_commands user_id).getD []
      let recent_commands :=
        recent_commands.filter (fun p => timestamp.t - p.2.t < 60)
      let recent_commands := recent_commands ++ [(command, timestamp)]
      let s := { s with user_commands := dictSet s.user_commands user_id recent_commands }
      .ok (checkSequences user_id timestamp recent_commands catalog, s)
    | _, _ => .error ()
  else .ok (none, s)

/-- `check_command_sequence` of smart_home_anomaly_detection.py. -/
def check_command_sequence (e : Event) (s : EngineState) : DetResult :=
  check_command_sequence_with SUSPICIOUS_SEQUENCES e s

/-- The fixed, ordered detector list. -/
def detectors : List (Event → EngineState → DetResult) :=
  [check_failed_login_rate,
   check_control_command_rate,
   check_power_consumption,
   check_unusual_device_access,
   check_command_sequence]

/-- The evaluation record built by `log_event`. -/
structure EvalRecord where
  anomalies : List Anomaly
  alert : Bool
deriving Repr

/-- Run the detectors in order, collecting fired anomalies.  There is no
`try`/`except` in `process_event`: an exception in one detector propagates
and aborts the remaining detectors. -/
def runDetectors : List (Event → EngineState → DetResult) →
    Event → EngineState → Except Unit (List Anomaly × EngineState)
  | [], _, s => .ok ([], s)
  | d :: rest, e, s =>
    match d e s with
    | .error u => .error u
    | .ok (a, s') =>
      match runDetectors rest e s' with
      | .error u => .error u
      | .ok (anoms, s'') => .ok ((a.toList) ++ anoms, s'')

/-- `process_event` of smart_home_anomaly_detection.py: run every detector,
then emit the evaluation record (`alert = len(anomalies) > 0`). -/
def process_event (e : Event) (s : EngineState) :
    Except Unit (EvalRecord × EngineState) :=
  match runDetectors detectors e s with
  | .error u => .error u
  | .ok (anomalies, s') => .ok ({ anomalies := anomalies, alert := anomalies.length > 0 }, s')

end SmartHome

namespace RoleAware

/-- A local `datetime` as produced by `datetime.fromtimestamp`: the fields
`RoleAwareFilter.default_is_business_hours` consults.  `weekday` follows
Python's convention (0 = Monday, …, 6 = Sunday). -/
structure LocalDateTime where
  weekday : ℕ
  hour : ℕ
deriving DecidableEq, Repr

/-- `RoleAwareFilter.default_is_business_hours` of role_aware_filter.py,
parameterised by the `datetime.fromtimestamp` conversion (local-time
calendar arithmetic is external to the module). -/
def default_is_business_hours (fromtimestamp : ℚ → LocalDateTime) (timestamp : ℚ) : Bool :=
  let dt := fromtimestamp timestamp
  if dt.weekday ≥ 5 then false
  else decide (9 ≤ dt.hour ∧ dt.hour ≤ 17)

/-- The `RoleAwareFilter` object: the configured role set and the
business-hours predicate chosen in `__init__`. -/
structure RoleAwareFilter where
  ignore_roles : List String
  is_business_hours : ℚ → Bool

/-- `RoleAwareFilter.__init__` with no `is_business_hours_func` supplied:
the default predicate is installed. -/
def RoleAwareFilter.mkDefault (ignore_roles_during_business_hours : List String)
    (fromtimestamp : ℚ → LocalDateTime) : RoleAwareFilter :=
  { ignore_roles := ignore_roles_during_business_hours,
    is_business_hours := default_is_business_hours fromtimestamp }

/-- `RoleAwareFilter.filter_event` of role_aware_filter.py. -/
def RoleAwareFilter.filter_event (f : RoleAwareFilter)
    (event_name user_role user_id source_id : String) (timestamp : ℚ)
    (context : List (String × String)) : Bool :=
  if user_role ∈ f.ignore_roles then !(f.is_business_hours timestamp)
  else true

end RoleAware

namespace LoginVariant

/-- The warning that `detect_failed_logins` logs when the threshold is met. -/
structure LoginWarning where
  user_id : String
  attempts : ℕ
deriving DecidableEq, Repr

/-- Evict from the front every timestamp strictly older than the window
(the `while ... popleft()` loop of rate_anom_det_login.py). -/
def evictOldQ (time_window : ℚ) (current_time : ℚ) : List ℚ → List ℚ
  | [] => []
  | x :: rest => if current_time - x > time_window then evictOldQ time_window current_time rest
                 else x :: rest

/-- `detect_failed_logins` of rate_anom_det_login.py.  The
`failed_attempts` store is a `defaultdict` created afresh as a local
variable on every call, so the function carries no state between calls;
its only observable output is the optional logged warning. -/
def detect_failed_logins (event_name user_role user_id source_id : String)
    (timestamp : ℚ) (ctx_success : Option Bool)
    (threshold : ℕ) (time_window : ℚ) : Option LoginWarning :=
  if event_name ≠ "login_attempt" ∨ ctx_success.getD true then none
  else
    -- fresh per-call store: the user's deque starts empty
    let attempts : List ℚ := [] ++ [timestamp]
    let attempts := evictOldQ time_window timestamp attempts
    if attempts.length ≥ threshold then
      -- warning logged, then the queue is cleared (a local, lost afterwards)
      some { user_id := user_id, attempts := attempts.length }
    else none

end LoginVariant

namespace MultiUser

/-- The `MultiUserControlDetector` object of multi_user_control_det.py:
the configured window and the `device_id -> (timestamp, user_id)` map. -/
structure MultiUserControlDetector where
  time_window : ℚ
  last_control : SmartHome.PyDict String (ℚ × String) := []
deriving Repr

/-- `MultiUserControlDetector.detect`: returns the anomaly flag and the
updated detector.  `context.get("device_id")` is modelled as an `Option`;
Python's `if not device_id` also rejects the empty string. -/
def MultiUserControlDetector.detect (d : MultiUserControlDetector)
    (event_name user_role user_id source_id : String) (timestamp : ℚ)
    (ctx_device_id : Option String) : Bool × MultiUserControlDetector :=
  if event_name ≠ "toggle_device" then (false, d)
  else
    match ctx_device_id with
    | none => (false, d)
    | some device_id =>
      if device_id = "" then (false, d)
      else
        let prev_control := SmartHome.dictGet d.last_control device_id
        let d' := { d with
          last_control := SmartHome.dictSet d.last_control device_id (timestamp, user_id) }
        match prev_control with
        | none => (false, d')
        | some (prev_time, prev_user) =>
          (decide (prev_user ≠ user_id) && decide (timestamp - prev_time < d.time_window), d')

end MultiUser

namespace SmartHome

/-! ### Concrete scenario fixtures -/

/-- A timestamp `q` seconds into an hour-10 morning (hour component 10). -/
def at10 (q : ℚ) : DateTime := ⟨q, 10⟩

/-- A failed `login_attempt` for `user1` at time `q`. -/
def failedLogin (q : ℚ) : Event :=
  { type := "login_attempt", timestamp := at10 q,
    user_id := some "user1", success := some false }

/-- Feed a list of events to `check_failed_login_rate`, threading the state
and collecting each event's fired anomaly. -/
def runFailedLogins (evs : List Event) (s : EngineState) :
    List (Option Anomaly) × EngineState :=
  evs.foldl
    (fun acc e =>
      match check_failed_login_rate e acc.2 with
      | .error _ => (acc.1 ++ [none], acc.2)
      | .ok (a, s') => (acc.1 ++ [a], s'))
    ([], s)

/-- The §8 end-to-end login scenario: failures at t = 0, 5, …, 25, then 30. -/
def loginScenario : List Event :=
  [failedLogin 0, failedLogin 5, failedLogin 10, failedLogin 15,
   failedLogin 20, failedLogin 25, failedLogin 30]

/-- A `control_command` by `user1` on `light1` at hour `h`, role `r`. -/
def cmdEvent (h : ℕ) (r : String) : Event :=
  { type := "control_command", timestamp := ⟨0, h⟩,
    user_id := some "user1", role := some r,
    device_id := some "light1", command := some "on" }

/-- A state whose `("user1", "light1")` command window already holds `n`
in-window timestamps. -/
def cmdState (n : ℕ) (h : ℕ) : EngineState :=
  { control_commands := [(("user1", "light1"), List.replicate n (⟨0, h⟩ : DateTime))] }

/-- A power `sensor_reading` on device `"d"` with value `v`. -/
def powerEvent (v : ℚ) : Event :=
  { type := "sensor_reading", timestamp := at10 0, device_id := some "d",
    reading_type := some "power", value := some v }

/-- A state whose history for device `"d"` is the single reading 100. -/
def powerState100 : EngineState := { power_readings := [("d", [100])] }

/-- A `control_command` by the unseen user `"u9"` on `"dev1"`. -/
def unseenUserEvent : Event :=
  { type := "control_command", timestamp := at10 0,
    user_id := some "u9", device_id := some "dev1" }

/-- A state with an empty `user_profiles` map. -/
def emptyProfileState : EngineState := {}

/-- An `unlock_door` command by `"u"` at time `q`. -/
def unlockEvent (q : ℚ) : Event :=
  { type := "control_command", timestamp := at10 q,
    user_id := some "u", command := some "unlock_door" }

/-- A state in which `"u"` issued `disable_alarm` at t = 0. -/
def alarmState : EngineState :=
  { user_commands := [("u", [("disable_alarm", at10 0)])] }

/-- A two-entry catalog in which both pairs can match the same history:
used to exhibit the first-match-wins behaviour of the sequence loop. -/
def twoSeqCatalog : List (List String × ℚ) :=
  [(["unlock_door"], 10), (["disable_alarm", "unlock_door"], 10)]

/-- A `login_attempt` event with no `success` field: accessing
`event["success"]` raises `KeyError`. -/
def malformedLogin : Event :=
  { type := "login_attempt", timestamp := at10 0, user_id := some "user1" }

/-! ### Supporting lemmas about the dictionary model -/

theorem dictGet_dictSet_self {α β : Type} [DecidableEq α] (m : PyDict α β) (k : α) (v : β) :
    dictGet (dictSet m k v) k = some v := by
  induction m with
  | nil => simp [dictGet, dictSet]
  | cons p rest ih =>
    obtain ⟨k', v'⟩ := p
    by_cases h : k' = k
    · simp [dictGet, dictSet, h]
    · simp [dictGet, dictSet, h, ih]

theorem dictSet_eq_self_of_get {α β : Type} [DecidableEq α] (m : PyDict α β) (k : α) (v : β)
    (h : dictGet m k = some v) : dictSet m k v = m := by
  induction m with
  | nil => simp [dictGet] at h
  | cons p rest ih =>
    obtain ⟨k', v'⟩ := p
    by_cases hk : k' = k
    · simp [dictGet, hk] at h
      simp [dictSet, hk, h]
    · simp [dictGet, hk] at h
      simp [dictSet, hk, ih h]

/-- `checkSequences` fires exactly when some configured pair matches. -/
theorem checkSequences_isSome_iff (user_id : String) (timestamp : DateTime)
    (recent : List (String × DateTime)) (catalog : List (List String × ℚ)) :
    (checkSequences user_id timestamp recent catalog).isSome = true ↔
      ∃ p ∈ catalog, seqMatches timestamp recent p.1 p.2 = true := by
  induction catalog with
  | nil => simp [checkSequences]
  | cons p rest ih =>
    obtain ⟨sequence, time_window⟩ := p
    by_cases h : seqMatches timestamp recent sequence time_window = true
    · simp [checkSequences, h]
    · rw [show checkSequences user_id timestamp recent ((sequence, time_window) :: rest) =
            checkSequences user_id timestamp recent rest from by
          simp [checkSequences, h]]
      rw [ih]
      constructor
      · rintro ⟨q, hq, hm⟩
        exact ⟨q, List.mem_cons_of_mem _ hq, hm⟩
      · rintro ⟨q, hq, hm⟩
        rcases List.mem_cons.mp hq with hq | hq
        · rw [hq] at hm
          exact absurd hm h
        · exact ⟨q, hq, hm⟩

end SmartHome

/-! ### Claim theorems -/

/-- C9: the standalone login-rate variant `detect_failed_logins` creates its
`failed_attempts` store afresh inside every call, so the per-user queue
compared against the threshold always has length at most 1; with any
threshold ≥ 2 the alert-and-clear branch is unreachable and no warning is
ever emitted, regardless of the arguments or of any prior calls (the
function carries no state between calls). -/
theorem detect_failed_logins_never_warns
    (event_name user_role user_id source_id : String) (timestamp : ℚ)
    (ctx_success : Option Bool) (threshold : ℕ) (time_window : ℚ)
    (hthr : 2 ≤ threshold) :
    LoginVariant.detect_failed_logins event_name user_role user_id source_id
      timestamp ctx_success threshold time_window = none := by
  unfold LoginVariant.detect_failed_logins
  split
  · rfl
  · simp only [List.nil_append, LoginVariant.evictOldQ]
    split
    · rw [if_neg]
      simp only [LoginVariant.evictOldQ, List.length_nil]
      omega
    · rw [if_neg]
      simp only [List.length_singleton]
      omega

/-- Witness for C9 at a concrete failed-login call with the default
threshold 5 and window 300. -/
theorem detect_failed_logins_never_warns_witness :
    LoginVariant.detect_failed_logins "login_attempt" "USER" "u123" "192.168.1.1"
      100 (some false) 5 300 = none :=
  detect_failed_logins_never_warns "login_attempt" "USER" "u123" "192.168.1.1"
    100 (some false) 5 300 (by norm_num)

/-- C10: `MultiUserControlDetector.detect` returns `true` exactly when the
event is a `toggle_device` with a non-empty `device_id` in its context, a
previous control record exists for that device, the previous controller is a
different user, and the elapsed time is strictly below the window; every
`toggle_device` event with a device id (firing or not) overwrites the
device's last-control record with the current `(timestamp, user_id)`, and
any other event leaves the detector unchanged and returns `false`. -/
theorem multiUserControlDetector_detect_spec
    (d : MultiUser.MultiUserControlDetector)
    (event_name user_role user_id source_id : String) (timestamp : ℚ)
    (ctx_device_id : Option String) :
    ((d.detect event_name user_role user_id source_id timestamp ctx_device_id).1 = true ↔
      event_name = "toggle_device" ∧ ∃ device_id, ctx_device_id = some device_id ∧
        device_id ≠ "" ∧ ∃ prev_time prev_user,
          SmartHome.dictGet d.last_control device_id = some (prev_time, prev_user) ∧
          prev_user ≠ user_id ∧ timestamp - prev_time < d.time_window) ∧
    (∀ device_id, event_name = "toggle_device" → ctx_device_id = some device_id →
      device_id ≠ "" →
      (d.detect event_name user_role user_id source_id timestamp ctx_device_id).2 =
        { d with last_control :=
            SmartHome.dictSet d.last_control device_id (timestamp, user_id) }) ∧
    ((event_name ≠ "toggle_device" ∨ ctx_device_id = none ∨ ctx_device_id = some "") →
      d.detect event_name user_role user_id source_id timestamp ctx_device_id = (false, d)) := by
  unfold MultiUser.MultiUserControlDetector.detect
  refine ⟨?_, ?_, ?_⟩
  · by_cases hen : event_name = "toggle_device"
    · cases hctx : ctx_device_id with
      | none => simp [hen, hctx]
      | some device_id =>
        by_cases hdid : device_id = ""
        · subst hdid
          simp [hen, hctx]
        · cases hprev : SmartHome.dictGet d.last_control device_id with
          | none => simp [hen, hctx, hdid, hprev]
          | some pc =>
            obtain ⟨prev_time, prev_user⟩ := pc
            simp only [hen, hctx, hprev, ne_eq, not_true_eq_false, reduceIte, hdid,
              if_false, Bool.and_eq_true, decide_eq_true_eq]
            constructor
            · rintro ⟨h1, h2⟩
              exact ⟨trivial, device_id, rfl, hdid, prev_time, prev_user, hprev, h1, h2⟩
            · rintro ⟨-, did', hdid', -, pt, pu, hprev', h1, h2⟩
              obtain rfl : device_id = did' := Option.some.inj hdid'
              rw [hprev] at hprev'
              obtain ⟨rfl, rfl⟩ : pt = prev_time ∧ pu = prev_user := by
                have := Option.some.inj hprev'
                exact ⟨congrArg Prod.fst this.symm, congrArg Prod.snd this.symm⟩
              exact ⟨h1, h2⟩
    · simp [hen]
  · intro device_id hen hctx hdid
    subst hen hctx
    simp only [reduceIte, hdid]
    match hprev : SmartHome.dictGet d.last_control device_id with
    | none => simp [hprev]
    | some (prev_time, prev_user) => simp [hprev]
  · rintro (hen | hctx | hctx)
    · simp [hen]
    · subst hctx
      split
      · rfl
      · rfl
    · subst hctx
      split
      · rfl
      · simp

/-- Witness for C10: `bob` toggles `dev1` 30s after `alice` did (fires), and
a non-toggle event leaves the detector unchanged. -/
theorem multiUserControlDetector_detect_spec_witness :
    (MultiUser.MultiUserControlDetector.detect
        { time_window := 60, last_control := [("dev1", (0, "alice"))] }
        "toggle_device" "USER" "bob" "s1" 30 (some "dev1")).1 = true ∧
    MultiUser.MultiUserControlDetector.detect
        { time_window := 60, last_control := [("dev1", (0, "alice"))] }
        "login_attempt" "USER" "bob" "s1" 30 (some "dev1") =
      (false, { time_window := 60, last_control := [("dev1", (0, "alice"))] }) :=
  ⟨(multiUserControlDetector_detect_spec
      { time_window := 60, last_control := [("dev1", (0, "alice"))] }
      "toggle_device" "USER" "bob" "s1" 30 (some "dev1")).1.mpr
      ⟨rfl, "dev1", rfl, by decide, 0, "alice", rfl, by decide, by norm_num⟩,
   (multiUserControlDetector_detect_spec
      { time_window := 60, last_control := [("dev1", (0, "alice"))] }
      "login_attempt" "USER" "bob" "s1" 30 (some "dev1")).2.2
      (Or.inl (by decide))⟩

/-- C8: `RoleAwareFilter.filter_event` (with the default business-hours
predicate installed) returns `true` exactly when the role is not privileged,
or the role is privileged and the timestamp falls outside business hours;
and the default predicate holds exactly when the local weekday is Monday
through Friday (Python weekday < 5) and the local hour lies in `[9, 17]`,
inclusive at both ends. -/
theorem roleAwareFilter_filter_event_spec
    (roles : List String) (fromtimestamp : ℚ → RoleAware.LocalDateTime)
    (event_name user_role user_id source_id : String) (timestamp : ℚ)
    (context : List (String × String)) :
    ((RoleAware.RoleAwareFilter.mkDefault roles fromtimestamp).filter_event
        event_name user_role user_id source_id timestamp context = true ↔
      user_role ∉ roles ∨
        RoleAware.default_is_business_hours fromtimestamp timestamp = false) ∧
    (RoleAware.default_is_business_hours fromtimestamp timestamp = true ↔
      (fromtimestamp timestamp).weekday < 5 ∧
        9 ≤ (fromtimestamp timestamp).hour ∧ (fromtimestamp timestamp).hour ≤ 17) := by
  constructor
  · unfold RoleAware.RoleAwareFilter.filter_event RoleAware.RoleAwareFilter.mkDefault
    by_cases hrole : user_role ∈ roles
    · simp only [hrole, ite_true, Bool.not_eq_true']
      simp [hrole]
    · simp [hrole]
  · unfold RoleAware.default_is_business_hours
    by_cases hwd : (fromtimestamp timestamp).weekday ≥ 5
    · simp only [hwd, ite_true]
      constructor
      · intro h
        exact absurd h (by simp)
      · intro h
        omega
    · simp only [hwd, ite_false]
      simp only [decide_eq_true_eq]
      omega

namespace SmartHome

/-- Lookup after update: the updated key reads the new value, others are
untouched. -/
theorem dictGet_dictSet {α β : Type} [DecidableEq α] (m : PyDict α β) (k k' : α) (v : β) :
    dictGet (dictSet m k v) k' = if k = k' then some v else dictGet m k' := by
  induction m with
  | nil =>
    by_cases h : k = k' <;> simp [dictGet, dictSet, h]
  | cons p rest ih =>
    obtain ⟨a, b⟩ := p
    by_cases hak : a = k
    · subst hak
      by_cases h : a = k' <;> simp [dictGet, dictSet, h]
    · by_cases h : a = k'
      · subst h
        have : ¬k = a := fun hh => hak hh.symm
        simp [dictGet, dictSet, hak, this]
      · simp [dictGet, dictSet, hak, h, ih]

/-- Unfolding of `check_failed_login_rate` on a failed `login_attempt` whose
fields are present. -/
theorem check_failed_login_rate_eq (e : Event) (s : EngineState) (user_id : String)
    (hty : e.type = "login_attempt") (hsucc : e.success = some false)
    (huid : e.user_id = some user_id) :
    check_failed_login_rate e s =
      (let q := evictOld FAILED_LOGIN_WINDOW e.timestamp
          ((dictGet s.failed_logins user_id).getD []) ++ [e.timestamp]
      .ok ((if FAILED_LOGIN_THRESHOLD < q.length then
              some (.failed_login_rate user_id q.length) else none),
           { s with failed_logins := dictSet s.failed_logins user_id q })) := by
  unfold check_failed_login_rate
  simp only [hty, hsucc, huid, getField, if_true, reduceIte]
  split
  · simp_all
  · simp_all

/-- Unfolding of `check_control_command_rate` on a `control_command` whose
fields are present. -/
theorem check_control_command_rate_eq (e : Event) (s : EngineState)
    (user_id role device_id : String)
    (hty : e.type = "control_command") (huid : e.user_id = some user_id)
    (hrole : e.role = some role) (hdev : e.device_id = some device_id) :
    check_control_command_rate e s =
      (let q := evictOld CONTROL_COMMAND_WINDOW e.timestamp
          ((dictGet s.control_commands (user_id, device_id)).getD []) ++ [e.timestamp]
      let threshold := if (role = "ADMIN" ∨ role = "MANAGER") ∧ is_business_hours e.timestamp
        then CONTROL_COMMAND_THRESHOLD_ADMIN else CONTROL_COMMAND_THRESHOLD
      .ok ((if threshold < q.length then
              some (.control_command_rate user_id device_id q.length) else none),
           { s with control_commands := dictSet s.control_commands (user_id, device_id) q })) := by
  unfold check_control_command_rate
  simp only [hty, huid, hrole, hdev, getField, if_true, reduceIte]
  split
  · split <;> rfl
  · split <;> rfl

/-- Unfolding of `check_power_consumption` on a power `sensor_reading` whose
fields are present. -/
theorem check_power_consumption_eq (e : Event) (s : EngineState)
    (device_id : String) (value : ℚ)
    (hty : e.type = "sensor_reading") (hrt : e.reading_type = some "power")
    (hdev : e.device_id = some device_id) (hval : e.value = some value) :
    check_power_consumption e s =
      (if value ≤ 0 then .ok (some (.invalid_power_reading device_id value), s)
       else
        let hist := (dictGet s.power_readings device_id).getD []
        let avg := hist.sum / hist.length
        if hist.length ≠ 0 ∧ 3/2 * avg < value then
          .ok (some (.high_power_reading device_id value avg), s)
        else
          let h2 := hist ++ [value]
          .ok (none, { s with power_readings := dictSet s.power_readings device_id (if POWER_READING_HISTORY < h2.length then h2.drop 1 else h2) })) := by
  unfold check_power_consumption
  simp only [hty, hrt, hdev, hval, getField, if_true, reduceIte]

/-- Unfolding of `check_unusual_device_access` on a `control_command` whose
fields are present. -/
theorem check_unusual_device_access_eq (e : Event) (s : EngineState)
    (user_id device_id : String)
    (hty : e.type = "control_command") (huid : e.user_id = some user_id)
    (hdev : e.device_id = some device_id) :
    check_unusual_device_access e s =
      (let common := (dictGet s.user_profiles user_id).getD []
      .ok ((if device_id ∈ common then none
            else some (.unusual_device_access user_id device_id)),
           { s with user_profiles := dictSet s.user_profiles user_id common })) := by
  unfold check_unusual_device_access
  simp only [hty, huid, hdev, getField, if_true, reduceIte]
  split
  · simp_all
  · simp_all

/-- Unfolding of `check_command_sequence_with` on a `control_command` whose
fields are present. -/
theorem check_command_sequence_with_eq (catalog : List (List String × ℚ))
    (e : Event) (s : EngineState) (user_id command : String)
    (hty : e.type = "control_command") (huid : e.user_id = some user_id)
    (hcmd : e.command = some command) :
    check_command_sequence_with catalog e s =
      (let recent := ((dictGet s.user_commands user_id).getD []).filter
          (fun p => e.timestamp.t - p.2.t < 60) ++ [(command, e.timestamp)]
      .ok (checkSequences user_id e.timestamp recent catalog,
           { s with user_commands := dictSet s.user_commands user_id recent })) := by
  unfold check_command_sequence_with
  simp only [hty, huid, hcmd, getField, if_true, reduceIte]

end SmartHome

namespace SmartHome

/-- C6 (amended): on a `control_command`, `check_unusual_device_access`
fires `unusual_device_access` exactly when the device is not in the user's
profile (the empty set for an unseen user), and it never adds devices to any
profile; the profiles map is unchanged whenever the user already has a
profile entry, but for an unseen user the `setdefault` call inserts a fresh
empty profile entry for that user. -/
theorem check_unusual_device_access_spec :
    (∀ (e : Event) (s : EngineState) (user_id device_id : String),
      e.type = "control_command" → e.user_id = some user_id →
      e.device_id = some device_id →
      check_unusual_device_access e s =
        .ok ((if device_id ∈ (dictGet s.user_profiles user_id).getD [] then none
              else some (.unusual_device_access user_id device_id)),
             { s with user_profiles := dictSet s.user_profiles user_id ((dictGet s.user_profiles user_id).getD []) })) ∧
    (∀ (e : Event) (s : EngineState) (user_id device_id : String)
      (profile : List String),
      e.type = "control_command" → e.user_id = some user_id →
      e.device_id = some device_id →
      dictGet s.user_profiles user_id = some profile →
      check_unusual_device_access e s =
        .ok ((if device_id ∈ profile then none
              else some (.unusual_device_access user_id device_id)), s)) := by
  constructor
  · intro e s user_id device_id hty huid hdev
    exact check_unusual_device_access_eq e s user_id device_id hty huid hdev
  · intro e s user_id device_id profile hty huid hdev hprof
    rw [check_unusual_device_access_eq e s user_id device_id hty huid hdev]
    simp only [hprof, Option.getD_some, dictSet_eq_self_of_get _ _ _ hprof]

/-- Witness for C6 (amended) at the seen user `user1` with profile
`["light1", "thermostat1"]` commanding `camera1`: fires, state unchanged. -/
theorem check_unusual_device_access_spec_witness :
    check_unusual_device_access
        { type := "control_command", timestamp := at10 0,
          user_id := some "user1", device_id := some "camera1" }
        { user_profiles := [("user1", ["light1", "thermostat1"])] } =
      .ok (some (.unusual_device_access "user1" "camera1"),
           { user_profiles := [("user1", ["light1", "thermostat1"])] }) :=
  ((check_unusual_device_access_spec.2
      { type := "control_command", timestamp := at10 0,
        user_id := some "user1", device_id := some "camera1" }
      { user_profiles := [("user1", ["light1", "thermostat1"])] }
      "user1" "camera1" ["light1", "thermostat1"] rfl rfl rfl rfl).trans
    (by rfl))

/-- C6 counterexample: for the unseen user `u9`, `setdefault` inserts a
fresh empty profile entry, so the `user_profiles` map after the call
(`[("u9", [])]`) differs from the map before (`[]`) — the claim that the
profiles map is left unchanged fails. -/
theorem check_unusual_device_access_counterexample :
    check_unusual_device_access unseenUserEvent emptyProfileState =
      .ok (some (.unusual_device_access "u9" "dev1"),
           { emptyProfileState with user_profiles := [("u9", [])] }) ∧
    emptyProfileState.user_profiles = [] := ⟨rfl, rfl⟩

/-- A positive power reading that does not trip the high-reading check is
appended to the device history (with the FIFO trim). -/
theorem check_power_consumption_nofire (e : Event) (s : EngineState)
    (device_id : String) (value : ℚ) (hist : List ℚ)
    (hty : e.type = "sensor_reading") (hrt : e.reading_type = some "power")
    (hdev : e.device_id = some device_id) (hval : e.value = some value)
    (hpos : 0 < value) (hhist : hist = (dictGet s.power_readings device_id).getD [])
    (hnofire : ¬(hist ≠ [] ∧ 3/2 * (hist.sum / (hist.length : ℚ)) < value)) :
    check_power_consumption e s =
      .ok (none, { s with power_readings := dictSet s.power_readings device_id (if POWER_READING_HISTORY < (hist ++ [value]).length then (hist ++ [value]).drop 1 else hist ++ [value]) }) := by
  subst hhist
  simp only [check_power_consumption_eq e s device_id value hty hrt hdev hval]
  rw [if_neg (not_le.mpr hpos), if_neg]
  intro hc
  exact hnofire ⟨by simpa [List.length_eq_zero] using hc.1, hc.2⟩

/-- A positive power reading strictly above 1.5 × the pre-update average
fires `high_power_reading` and leaves the state untouched. -/
theorem check_power_consumption_highfire (e : Event) (s : EngineState)
    (device_id : String) (value : ℚ) (hist : List ℚ)
    (hty : e.type = "sensor_reading") (hrt : e.reading_type = some "power")
    (hdev : e.device_id = some device_id) (hval : e.value = some value)
    (hpos : 0 < value) (hhist : hist = (dictGet s.power_readings device_id).getD [])
    (hne : hist ≠ []) (hfire : 3/2 * (hist.sum / (hist.length : ℚ)) < value) :
    check_power_consumption e s =
      .ok (some (.high_power_reading device_id value (hist.sum / (hist.length : ℚ))), s) := by
  subst hhist
  simp only [check_power_consumption_eq e s device_id value hty hrt hdev hval]
  rw [if_neg (not_le.mpr hpos), if_pos]
  exact ⟨by simpa [List.length_eq_zero] using hne, hfire⟩

/-- C1 (amended): a positive power reading is appended to the device's
bounded history after the high-reading comparison against the pre-update
average only when the high-reading check did not fire; a reading that fires
the check is *not* appended (the state is returned unchanged); and the
history is bounded by 100 entries with FIFO eviction of the oldest. -/
theorem check_power_consumption_history_spec :
    (∀ (e : Event) (s : EngineState) (device_id : String) (value : ℚ)
      (hist : List ℚ),
      e.type = "sensor_reading" → e.reading_type = some "power" →
      e.device_id = some device_id → e.value = some value → 0 < value →
      hist = (dictGet s.power_readings device_id).getD [] →
      ¬(hist ≠ [] ∧ 3/2 * (hist.sum / (hist.length : ℚ)) < value) →
      check_power_consumption e s =
        .ok (none, { s with power_readings := dictSet s.power_readings device_id (if POWER_READING_HISTORY < (hist ++ [value]).length then (hist ++ [value]).drop 1 else hist ++ [value]) })) ∧
    (∀ (e : Event) (s : EngineState) (device_id : String) (value : ℚ)
      (hist : List ℚ),
      e.type = "sensor_reading" → e.reading_type = some "power" →
      e.device_id = some device_id → e.value = some value → 0 < value →
      hist = (dictGet s.power_readings device_id).getD [] →
      hist ≠ [] → 3/2 * (hist.sum / (hist.length : ℚ)) < value →
      check_power_consumption e s =
        .ok (some (.high_power_reading device_id value (hist.sum / (hist.length : ℚ))), s)) ∧
    (∀ (e : Event) (s s' : EngineState) (a : Option Anomaly)
      (device_id : String) (value : ℚ),
      e.type = "sensor_reading" → e.reading_type = some "power" →
      e.device_id = some device_id → e.value = some value →
      (∀ k h, dictGet s.power_readings k = some h → h.length ≤ POWER_READING_HISTORY) →
      check_power_consumption e s = .ok (a, s') →
      (∀ k h, dictGet s'.power_readings k = some h → h.length ≤ POWER_READING_HISTORY)) := by
  refine ⟨?_, ?_, ?_⟩
  · intro e s device_id value hist hty hrt hdev hval hpos hhist hnofire
    exact check_power_consumption_nofire e s device_id value hist
      hty hrt hdev hval hpos hhist hnofire
  · intro e s device_id value hist hty hrt hdev hval hpos hhist hne hfire
    exact check_power_consumption_highfire e s device_id value hist
      hty hrt hdev hval hpos hhist hne hfire
  · intro e s s' a device_id value hty hrt hdev hval hbound hrun k h hget
    have hlen : ((dictGet s.power_readings device_id).getD []).length ≤ POWER_READING_HISTORY := by
      cases hd : dictGet s.power_readings device_id with
      | none => simp
      | some h0 => simpa using hbound device_id h0 hd
    simp only [check_power_consumption_eq e s device_id value hty hrt hdev hval] at hrun
    split at hrun
    · cases hrun
      exact hbound k h hget
    · split at hrun
      · cases hrun
        exact hbound k h hget
      · cases hrun
        rw [dictGet_dictSet] at hget
        split at hget
        · cases hget
          split
          · simp only [List.length_drop, List.length_append, List.length_singleton]
            omega
          · next hle =>
            simp only [List.length_append, List.length_singleton] at hle ⊢
            omega
        · exact hbound k h hget

/-- Witness for C1 (amended): a non-firing reading of 120 against history
`[100]` is appended after the comparison, giving history `[100, 120]`. -/
theorem check_power_consumption_history_spec_witness :
    check_power_consumption (powerEvent 120) powerState100 =
      .ok (none, { powerState100 with power_readings := [("d", [100, 120])] }) :=
  ((check_power_consumption_history_spec.1 (powerEvent 120) powerState100
      "d" 120 [100] rfl rfl rfl rfl (by norm_num) rfl
      (by
        rintro ⟨-, hlt⟩
        norm_num at hlt)).trans
    (by rfl))

/-- C1 counterexample: against history `[100]`, the reading 200 fires the
high-reading check and the function returns *before* appending, so the
history stays `[100]` — refuting the claim that a valid reading is appended
whether or not the high-reading check fired. -/
theorem check_power_consumption_append_counterexample :
    check_power_consumption (powerEvent 200) powerState100 =
      .ok (some (.high_power_reading "d" 200 100), powerState100) ∧
    powerState100.power_readings = [("d", [100])] := by
  constructor
  · rw [check_power_consumption_eq (powerEvent 200) powerState100 "d" 200 rfl rfl rfl rfl]
    norm_num [powerState100, dictGet]
  · rfl

end SmartHome

namespace SmartHome

/-- C7: on a power `sensor_reading`, a value ≤ 0 always fires
`invalid_power_reading` regardless of history and is not added to the
history (the state is returned untouched); when the device history is
non-empty, the high-reading check fires `high_power_reading` — reporting the
pre-update average — exactly when the value is strictly greater than 1.5
times the mean of the history, so a value equal to exactly 1.5 × average
does not fire. -/
theorem check_power_consumption_fire_spec :
    (∀ (e : Event) (s : EngineState) (device_id : String) (value : ℚ),
      e.type = "sensor_reading" → e.reading_type = some "power" →
      e.device_id = some device_id → e.value = some value → value ≤ 0 →
      check_power_consumption e s =
        .ok (some (.invalid_power_reading device_id value), s)) ∧
    (∀ (e : Event) (s : EngineState) (device_id : String) (value : ℚ)
      (hist : List ℚ),
      e.type = "sensor_reading" → e.reading_type = some "power" →
      e.device_id = some device_id → e.value = some value → 0 < value →
      dictGet s.power_readings device_id = some hist → hist ≠ [] →
      (check_power_consumption e s =
          .ok (some (.high_power_reading device_id value (hist.sum / (hist.length : ℚ))), s) ↔
        3/2 * (hist.sum / (hist.length : ℚ)) < value)) ∧
    (∀ (e : Event) (s : EngineState) (device_id : String) (value : ℚ)
      (hist : List ℚ),
      e.type = "sensor_reading" → e.reading_type = some "power" →
      e.device_id = some device_id → e.value = some value → 0 < value →
      dictGet s.power_readings device_id = some hist → hist ≠ [] →
      value = 3/2 * (hist.sum / (hist.length : ℚ)) →
      ∃ s', check_power_consumption e s = .ok (none, s')) := by
  refine ⟨?_, ?_, ?_⟩
  · intro e s device_id value hty hrt hdev hval hle
    rw [check_power_consumption_eq e s device_id value hty hrt hdev hval, if_pos hle]
  · intro e s device_id value hist hty hrt hdev hval hpos hget hne
    constructor
    · intro hrun
      by_contra hnlt
      have := check_power_consumption_nofire e s device_id value hist
        hty hrt hdev hval hpos (by simp [hget]) (by
          rintro ⟨-, hlt⟩
          exact hnlt hlt)
      rw [this] at hrun
      simp at hrun
    · intro hlt
      exact check_power_consumption_highfire e s device_id value hist
        hty hrt hdev hval hpos (by simp [hget]) hne hlt
  · intro e s device_id value hist hty hrt hdev hval hpos hget hne heq
    refine ⟨_, check_power_consumption_nofire e s device_id value hist
      hty hrt hdev hval hpos (by simp [hget]) ?_⟩
    rintro ⟨-, hlt⟩
    rw [heq] at hlt
    exact lt_irrefl _ hlt

/-- Witness for C7: a reading of 0 fires `invalid_power_reading` against the
history `[100]`, and a reading of exactly 150 = 1.5 × 100 does not fire. -/
theorem check_power_consumption_fire_spec_witness :
    check_power_consumption (powerEvent 0) powerState100 =
      .ok (some (.invalid_power_reading "d" 0), powerState100) ∧
    (∃ s', check_power_consumption (powerEvent 150) powerState100 = .ok (none, s')) :=
  ⟨check_power_consumption_fire_spec.1 (powerEvent 0) powerState100 "d" 0
      rfl rfl rfl rfl le_rfl,
   check_power_consumption_fire_spec.2.2 (powerEvent 150) powerState100 "d" 150 [100]
      rfl rfl rfl rfl (by norm_num) rfl (by simp) (by norm_num)⟩

end SmartHome

namespace SmartHome

/-- C2 (amended): on a `control_command`, `check_command_sequence` prunes
the user's history to entries strictly younger than 60s, appends the new
command, and then fires `suspicious_sequence` exactly when some configured
`(sequence, max_span)` pair matches (the last `sequence.length` commands
equal `sequence` in order and the span from the first of that slice is
`≤ max_span`, inclusive: span = 10 fires, span = 10.001 does not); the pairs
are examined in catalog order and only the *first* matching pair's anomaly
is emitted — the detector emits at most one anomaly per event. -/
theorem check_command_sequence_spec :
    (∀ (e : Event) (s : EngineState) (user_id command : String)
      (recent : List (String × DateTime)),
      e.type = "control_command" → e.user_id = some user_id →
      e.command = some command →
      recent = ((dictGet s.user_commands user_id).getD []).filter
          (fun p => e.timestamp.t - p.2.t < 60) ++ [(command, e.timestamp)] →
      check_command_sequence e s =
        .ok (checkSequences user_id e.timestamp recent SUSPICIOUS_SEQUENCES,
             { s with user_commands := dictSet s.user_commands user_id recent })) ∧
    (∀ (user_id : String) (timestamp : DateTime)
      (recent : List (String × DateTime)) (catalog : List (List String × ℚ)),
      (checkSequences user_id timestamp recent catalog).isSome = true ↔
        ∃ p ∈ catalog, seqMatches timestamp recent p.1 p.2 = true) ∧
    (check_command_sequence (unlockEvent 10) alarmState =
      .ok (some (.suspicious_sequence "u" ["disable_alarm", "unlock_door"]),
           { alarmState with user_commands := [("u", [("disable_alarm", at10 0), ("unlock_door", at10 10)])] })) ∧
    (check_command_sequence (unlockEvent (10001/1000)) alarmState =
      .ok (none,
           { alarmState with user_commands := [("u", [("disable_alarm", at10 0), ("unlock_door", at10 (10001/1000))])] })) := by
  refine ⟨?_, checkSequences_isSome_iff, ?_, ?_⟩
  · intro e s user_id command recent hty huid hcmd hrecent
    subst hrecent
    exact check_command_sequence_with_eq SUSPICIOUS_SEQUENCES e s user_id command hty huid hcmd
  · with_unfolding_all rfl
  · with_unfolding_all rfl

/-- Witness for C2 (amended), applying the general equation at the
span-boundary event (`unlock_door` 10s after `disable_alarm`). -/
theorem check_command_sequence_spec_witness :
    check_command_sequence (unlockEvent 10) alarmState =
      .ok (checkSequences "u" (at10 10)
             [("disable_alarm", at10 0), ("unlock_door", at10 10)] SUSPICIOUS_SEQUENCES,
           { alarmState with user_commands := [("u", [("disable_alarm", at10 0), ("unlock_door", at10 10)])] }) :=
  (check_command_sequence_spec.1 (unlockEvent 10) alarmState "u" "unlock_door"
      [("disable_alarm", at10 0), ("unlock_door", at10 10)] rfl rfl rfl
      (by with_unfolding_all rfl)).trans
    (by with_unfolding_all rfl)

/-- C2 counterexample: with a catalog of two pairs that both match the same
history (`["unlock_door"]` and `["disable_alarm", "unlock_door"]`), the loop
returns at the first matching pair, so only its anomaly is emitted even
though the second pair's firing condition also holds — refuting the claim
that the pairs are checked independently and more than one may fire for the
same event. -/
theorem check_command_sequence_counterexample :
    check_command_sequence_with twoSeqCatalog (unlockEvent 5) alarmState =
      .ok (some (.suspicious_sequence "u" ["unlock_door"]),
           { alarmState with user_commands := [("u", [("disable_alarm", at10 0), ("unlock_door", at10 5)])] }) ∧
    seqMatches (at10 5) [("disable_alarm", at10 0), ("unlock_door", at10 5)]
      ["disable_alarm", "unlock_door"] 10 = true ∧
    (some (Anomaly.suspicious_sequence "u" ["unlock_door"]) ≠
      some (Anomaly.suspicious_sequence "u" ["disable_alarm", "unlock_door"])) :=
  ⟨by with_unfolding_all rfl, by with_unfolding_all rfl, by decide⟩

/-- C3: `check_failed_login_rate` fires — with the current count — exactly
when, after evicting entries strictly older than 60s and appending the
current failed login, the per-user count strictly exceeds 5; a successful
login neither fires nor modifies the window; and the window is not cleared
after firing: 6 failures at t = 0, 5, …, 25 yield exactly one anomaly (on
the 6th event, count 6) and a 7th failure at t = 30 fires again with
count 7. -/
theorem check_failed_login_rate_spec :
    (∀ (e : Event) (s : EngineState) (user_id : String) (q : List DateTime),
      e.type = "login_attempt" → e.success = some false → e.user_id = some user_id →
      q = evictOld FAILED_LOGIN_WINDOW e.timestamp
            ((dictGet s.failed_logins user_id).getD []) ++ [e.timestamp] →
      check_failed_login_rate e s =
        .ok ((if FAILED_LOGIN_THRESHOLD < q.length then
                some (.failed_login_rate user_id q.length) else none),
             { s with failed_logins := dictSet s.failed_logins user_id q })) ∧
    (∀ (e : Event) (s : EngineState),
      e.type = "login_attempt" → e.success = some true →
      check_failed_login_rate e s = .ok (none, s)) ∧
    ((runFailedLogins loginScenario {}).1 =
      [none, none, none, none, none,
       some (.failed_login_rate "user1" 6), some (.failed_login_rate "user1" 7)]) := by
  refine ⟨?_, ?_, ?_⟩
  · intro e s user_id q hty hsucc huid hq
    subst hq
    exact check_failed_login_rate_eq e s user_id hty hsucc huid
  · intro e s hty hsucc
    unfold check_failed_login_rate
    simp [hty, hsucc, getField]
  · with_unfolding_all rfl

/-- Witness for C3: the first failed login of the scenario yields count 1
and no anomaly, with the window holding that single timestamp. -/
theorem check_failed_login_rate_spec_witness :
    check_failed_login_rate (failedLogin 0) {} =
      .ok (none, { failed_logins := [("user1", [at10 0])] }) :=
  (check_failed_login_rate_spec.1 (failedLogin 0) {} "user1" [at10 0]
      rfl rfl rfl (by with_unfolding_all rfl)).trans (by with_unfolding_all rfl)

/-- C4: `check_control_command_rate` uses threshold 20 when the role is
ADMIN or MANAGER and the event's hour component satisfies 9 ≤ hour < 17
(hour only), and threshold 10 otherwise; it fires exactly when the
post-eviction count for `(user_id, device_id)` strictly exceeds the
threshold: for ADMIN during business hours count 20 does not fire and
count 21 fires, while outside business hours count 11 fires. -/
theorem check_control_command_rate_spec :
    (∀ (e : Event) (s : EngineState) (user_id role device_id : String)
      (q : List DateTime),
      e.type = "control_command" → e.user_id = some user_id →
      e.role = some role → e.device_id = some device_id →
      q = evictOld CONTROL_COMMAND_WINDOW e.timestamp
            ((dictGet s.control_commands (user_id, device_id)).getD []) ++ [e.timestamp] →
      check_control_command_rate e s =
        .ok ((if (if (role = "ADMIN" ∨ role = "MANAGER") ∧
                    (9 ≤ e.timestamp.hour ∧ e.timestamp.hour < 17)
                  then 20 else 10) < q.length then
                some (.control_command_rate user_id device_id q.length) else none),
             { s with control_commands := dictSet s.control_commands (user_id, device_id) q })) ∧
    (check_control_command_rate (cmdEvent 10 "ADMIN") (cmdState 19 10) =
      .ok (none, { control_commands := [(("user1", "light1"), List.replicate 20 (⟨0, 10⟩ : DateTime))] })) ∧
    (check_control_command_rate (cmdEvent 10 "ADMIN") (cmdState 20 10) =
      .ok (some (.control_command_rate "user1" "light1" 21),
           { control_commands := [(("user1", "light1"), List.replicate 21 (⟨0, 10⟩ : DateTime))] })) ∧
    (check_control_command_rate (cmdEvent 20 "ADMIN") (cmdState 10 20) =
      .ok (some (.control_command_rate "user1" "light1" 11),
           { control_commands := [(("user1", "light1"), List.replicate 11 (⟨0, 20⟩ : DateTime))] })) := by
  refine ⟨?_, by with_unfolding_all rfl, by with_unfolding_all rfl,
    by with_unfolding_all rfl⟩
  intro e s user_id role device_id q hty huid hrole hdev hq
  subst hq
  rw [check_control_command_rate_eq e s user_id role device_id hty huid hrole hdev]
  simp only [CONTROL_COMMAND_THRESHOLD, CONTROL_COMMAND_THRESHOLD_ADMIN,
    is_business_hours, BUSINESS_HOURS_START, BUSINESS_HOURS_END, decide_eq_true_eq]

/-- Witness for C4: ADMIN at hour 10 with 19 prior in-window commands gives
count 20, which does not exceed the admin threshold, so no anomaly fires. -/
theorem check_control_command_rate_spec_witness :
    check_control_command_rate (cmdEvent 10 "ADMIN") (cmdState 19 10) =
      .ok ((if (if ("ADMIN" = "ADMIN" ∨ "ADMIN" = "MANAGER") ∧
                  (9 ≤ (cmdEvent 10 "ADMIN").timestamp.hour ∧
                    (cmdEvent 10 "ADMIN").timestamp.hour < 17)
                then 20 else 10) < (List.replicate 20 (⟨0, 10⟩ : DateTime)).length then
              some (.control_command_rate "user1" "light1"
                (List.replicate 20 (⟨0, 10⟩ : DateTime)).length) else none),
           { (cmdState 19 10) with control_commands := dictSet (cmdState 19 10).control_commands ("user1", "light1") (List.replicate 20 (⟨0, 10⟩ : DateTime)) }) :=
  check_control_command_rate_spec.1 (cmdEvent 10 "ADMIN") (cmdState 19 10)
    "user1" "ADMIN" "light1" (List.replicate 20 (⟨0, 10⟩ : DateTime))
    rfl rfl rfl rfl (by with_unfolding_all rfl)

/-- C5: `process_event` has no exception handling, so a malformed event —
here a `login_attempt` with no `success` field — raises `KeyError` inside
`check_failed_login_rate`, aborting the whole pass: no remaining detector
runs and no evaluation record is emitted, contrary to the fail-isolated
design the specification requires. -/
theorem process_event_malformed_aborts :
    process_event malformedLogin {} = .error () ∧
    check_failed_login_rate malformedLogin {} = .error () := ⟨rfl, rfl⟩

end SmartHome
